import Mathlib

/-!
Shallow embedding of the question-bank viewer (`src/app.py`): the JSON loader,
the JSON-to-table flattener, the filter pipeline, the selection-set operations
and the Markdown export, together with theorems settling the specification
claims about them.

Machine data is modelled as follows: a parsed JSON document is the inductive
`Json` (numbers as `Int`; the documents of this format carry only integral
numbers); a dataframe cell is a `Val` — either a scalar or a sequence of
scalars (the only list-valued cells this format produces are the `tags`
sequences); a record (row) is an association list from column name to `Val`,
with a missing column simply absent; a frame is an ordered column list plus an
ordered row list, mirroring a pandas DataFrame.
-/

/-- A parsed JSON value (`json.load` output). Numbers are modelled as `Int`. -/
inductive Json where
  | null
  | bool (b : Bool)
  | num (n : Int)
  | str (s : String)
  | arr (elems : List Json)
  | obj (fields : List (String × Json))

/-- A scalar dataframe cell: string, integer, boolean, or missing (pandas NaN). -/
inductive Scalar where
  | s (v : String)
  | i (v : Int)
  | b (v : Bool)
  | null
deriving DecidableEq, Repr

/-- A dataframe cell: a scalar, or a sequence of scalars (list-valued cells such
as `tags` are kept verbatim by `pd.json_normalize`). -/
inductive Val where
  | sc (a : Scalar)
  | lst (xs : List Scalar)
deriving DecidableEq, Repr

/-- A flattened record: association list from dotted column path to cell value.
A field the document does not carry is simply absent. -/
abbrev Record := List (String × Val)

/-- A tabular frame: the working column set in first-seen order, plus the rows. -/
structure Frame where
  cols : List String
  rows : List Record
deriving DecidableEq, Repr

/-- Python `str()` of a scalar cell: strings verbatim, integers in decimal,
booleans as `True`/`False`, and NaN as `"nan"` (what `astype(str)` yields). -/
def pyStr : Scalar → String
  | .s v => v
  | .i v => toString v
  | .b true => "True"
  | .b false => "False"
  | .null => "nan"

/-- The single-quote character, used by Python `repr` of strings. -/
def quoteStr : String := String.singleton (Char.ofNat 39)

/-- Python `repr()` of a scalar, as it appears inside `str()` of a list. -/
def pyRepr : Scalar → String
  | .s v => quoteStr ++ v ++ quoteStr
  | a => pyStr a

/-- Python `str()` of a cell value; `str()` of a list renders the bracketed,
comma-separated `repr` of its elements. -/
def pyStrVal : Val → String
  | .sc a => pyStr a
  | .lst xs => "[" ++ String.intercalate ", " (xs.map pyRepr) ++ "]"

/-- The scalar content of a JSON leaf. Arrays and objects never reach this
function on documents of this format (array cells hold scalars only, and nested
objects are flattened away before cells are formed); they map to NaN. -/
def scalarOfJson : Json → Scalar
  | .null => .null
  | .bool b => .b b
  | .num n => .i n
  | .str s => .s s
  | .arr _ => .null
  | .obj _ => .null

/-- One step of `pd.json_normalize`: flatten the fields of an object under a dotted
path: nested objects recurse with an extended path, arrays stay as
sequences of scalars, scalars become scalar cells. -/
def flattenFields (pre : String) : List (String × Json) → Record
  | [] => []
  | (k, Json.obj fs) :: rest => flattenFields (pre ++ k ++ ".") fs ++ flattenFields pre rest
  | (k, Json.arr xs) :: rest => (pre ++ k, Val.lst (xs.map scalarOfJson)) :: flattenFields pre rest
  | (k, v) :: rest => (pre ++ k, Val.sc (scalarOfJson v)) :: flattenFields pre rest
termination_by l => sizeOf l

/-- The record `pd.json_normalize` derives from one array entry (entries of the
`questions` arrays are objects). -/
def normalizeRecord : Json → Record
  | .obj fields => flattenFields "" fields
  | _ => []

/-- Deduplicate, keeping the first occurrence of each element — the order in
which pandas assembles a union of columns. -/
def dedupFirst (l : List String) : List String :=
  l.foldl (fun acc a => if a ∈ acc then acc else acc ++ [a]) []

/-- Model of `pd.json_normalize` over a list of entries: one row per entry, columns in
first-seen order. -/
def json_normalize (xs : List Json) : Frame :=
  { cols := dedupFirst (xs.flatMap (fun j => (normalizeRecord j).map Prod.fst))
    rows := xs.map normalizeRecord }

/-- The loop of `to_dataframe` over the top-level items of a dict: the first field whose
value is a list, in insertion order. -/
def firstArrayField : List (String × Json) → Option (List Json)
  | [] => none
  | (_, Json.arr xs) :: _ => some xs
  | _ :: rest => firstArrayField rest

/-- Function `to_dataframe` (src/app.py lines 18-34): `None` stays `None`; a list is
normalized row-wise; a dict is searched for its first list-valued top-level
field, which is normalized, else the whole dict becomes a single row; any
other value yields no table. -/
def to_dataframe : Option Json → Option Frame
  | none => none
  | some (Json.arr xs) => some (json_normalize xs)
  | some (Json.obj fields) =>
      match firstArrayField fields with
      | some xs => some (json_normalize xs)
      | none => some (json_normalize [Json.obj fields])
  | some _ => none

/-- The cell a row holds in a column: the looked-up value, or NaN when the
record does not carry the column (pandas materializes missing cells as NaN). -/
def getCell (r : Record) (c : String) : Val :=
  (r.lookup c).getD (Val.sc .null)

/-- The seven allow-list filter columns of the filter panel. -/
inductive FCol where
  | lesson_name
  | difficulty
  | bloom_level
  | qtype
  | module_col
  | lesson_code
  | source
deriving DecidableEq, Repr

/-- The dataframe column each filter control targets. -/
def FCol.colName : FCol → String
  | .lesson_name => "lesson_name"
  | .difficulty => "difficulty"
  | .bloom_level => "bloom_level"
  | .qtype => "type"
  | .module_col => "module"
  | .lesson_code => "lesson_code"
  | .source => "source"

/-- The filter panel state: one allow-list per column, the tag allow-list
(strings, as the multiselect offers `str(t)` forms), and the stripped search
text. -/
structure Criteria where
  colSel : FCol → List Val
  tags_sel : List String
  search_text : String

/-- The criteria imposing no restriction: every allow-list empty, no search. -/
def emptyCriteria : Criteria :=
  { colSel := fun _ => [], tags_sel := [], search_text := "" }

/-- Function `apply_in_filter` (src/app.py lines 178-181): when the column exists and the
allow-list is non-empty, keep the rows whose cell is a member (`Series.isin`);
otherwise return the frame unchanged. -/
def apply_in_filter (frame : Frame) (column : String) (values : List Val) : Frame :=
  if column ∈ frame.cols ∧ values ≠ [] then
    { frame with rows := frame.rows.filter (fun r => decide (getCell r column ∈ values)) }
  else frame

/-- The module filter step (src/app.py lines 187-189): both the column and the
selected values are coerced to string (`astype(str)` / `str(m)`) before the
membership test. -/
def module_filter (frame : Frame) (module_sel : List Val) : Frame :=
  if "module" ∈ frame.cols ∧ module_sel ≠ [] then
    { frame with
      rows := frame.rows.filter
        (fun r => decide (pyStrVal (getCell r "module") ∈ module_sel.map pyStrVal)) }
  else frame

/-- Function `has_any_tag` (src/app.py lines 194-197): a list cell matches when any
the `str()` form of some element is in the tag allow-list; a non-list cell matches when
its own `str()` form is. -/
def has_any_tag (tags_sel : List String) (x : Val) : Bool :=
  match x with
  | .lst xs => xs.any (fun t => decide (pyStr t ∈ tags_sel))
  | .sc a => decide (pyStr a ∈ tags_sel)

/-- The tag filter step (src/app.py lines 193-198). -/
def tag_filter (frame : Frame) (tags_sel : List String) : Frame :=
  if tags_sel ≠ [] ∧ "tags" ∈ frame.cols then
    { frame with rows := frame.rows.filter (fun r => has_any_tag tags_sel (getCell r "tags")) }
  else frame

/-- Case-insensitive substring test, the plain-text fragment of
`Series.str.contains(search, case=False)`. -/
def containsCI (hay needle : String) : Bool :=
  (List.range (hay.toLower.toList.length + 1)).any
    (fun i => needle.toLower.toList.isPrefixOf (hay.toLower.toList.drop i))

/-- Whether a row passes the text search: its `question_text` must be a string
containing the search text case-insensitively; a missing or non-string cell is
excluded (`na=False`). -/
def question_text_match (search : String) (r : Record) : Bool :=
  match getCell r "question_text" with
  | .sc (.s t) => containsCI t search
  | _ => false

/-- The text search step (src/app.py lines 200-201). -/
def text_filter (frame : Frame) (search_text : String) : Frame :=
  if search_text ≠ "" ∧ "question_text" ∈ frame.cols then
    { frame with rows := frame.rows.filter (question_text_match search_text) }
  else frame

/-- The whole filter pipeline (src/app.py lines 177-201), in source order:
the six plain `apply_in_filter` columns with the module step in fifth
position, then the tag filter, then the text search. -/
def applyFilters (df : Frame) (c : Criteria) : Frame :=
  let f := apply_in_filter df "lesson_name" (c.colSel .lesson_name)
  let f := apply_in_filter f "difficulty" (c.colSel .difficulty)
  let f := apply_in_filter f "bloom_level" (c.colSel .bloom_level)
  let f := apply_in_filter f "type" (c.colSel .qtype)
  let f := module_filter f (c.colSel .module_col)
  let f := apply_in_filter f "lesson_code" (c.colSel .lesson_code)
  let f := apply_in_filter f "source" (c.colSel .source)
  let f := tag_filter f c.tags_sel
  text_filter f c.search_text

/-- The single filter step the control of a given column performs. -/
def colStep (f : Frame) (col : FCol) (values : List Val) : Frame :=
  match col with
  | .module_col => module_filter f values
  | c => apply_in_filter f c.colName values

/-- The row predicate the filter step of a given column uses. -/
def colPred (col : FCol) (values : List Val) (r : Record) : Bool :=
  match col with
  | .module_col => decide (pyStrVal (getCell r "module") ∈ values.map pyStrVal)
  | c => decide (getCell r c.colName ∈ values)

/-- The selection key of each row of a frame, in row order:
`question_id::source` with both cells coerced to string (src/app.py 288-292). -/
def selKeyList (F : Frame) : List String :=
  F.rows.map (fun r => pyStrVal (getCell r "question_id") ++ "::" ++ pyStrVal (getCell r "source"))

/-- Bulk action "Select all filtered" (src/app.py 287-293): `selected_ids.update(ids)`,
inserting each visible key in turn. -/
def select_all_filtered (F : Frame) (S : Finset String) : Finset String :=
  (selKeyList F).foldl (fun s k => insert k s) S

/-- Bulk action "Clear filtered from selection" (src/app.py 295-303):
`selected_ids.difference_update(visible)`. -/
def clear_filtered (F : Frame) (S : Finset String) : Finset String :=
  S \ (selKeyList F).toFinset

/-- Bulk action "Clear ALL selections" (src/app.py 305-306): `selected_ids.clear()`. -/
def clear_all (_S : Finset String) : Finset String := ∅

/-- Function `value` (src/app.py lines 213-214): `""` for a missing cell (pandas NaN),
else Python `str()` of the cell. -/
def value (r : Record) (c : String) : String :=
  match r.lookup c with
  | none => ""
  | some (Val.sc .null) => ""
  | some v => pyStrVal v

/-- The option lines of one record (src/app.py lines 241-247): for each key
`A`..`D` whose dotted column exists in the frame and whose value is non-empty,
one `- <key>: <value>` line. -/
def optLines (cols : List String) (r : Record) : List String :=
  ["A", "B", "C", "D"].filterMap (fun k =>
    if ("options." ++ k) ∈ cols then
      if value r ("options." ++ k) ≠ "" then
        some ("- " ++ k ++ ": " ++ value r ("options." ++ k))
      else none
    else none)

/-- The tags line of one record (src/app.py lines 261-263): emitted only when
the `tags` cell is a non-empty list, joining the `str()` forms of the elements. -/
def tagsLines (r : Record) : List String :=
  match r.lookup "tags" with
  | some (Val.lst ts) =>
      if ts ≠ [] then ["- Tags: " ++ String.intercalate ", " (ts.map pyStr)] else []
  | _ => []

/-- The heading of one record (src/app.py line 229):
`### {question_id} — {lesson_name} (Module {module}) [{difficulty} | {bloom_level}]`. -/
def headerLine (r : Record) : String :=
  "### " ++ value r "question_id" ++ " — " ++ value r "lesson_name"
    ++ " (Module " ++ value r "module" ++ ") [" ++ value r "difficulty"
    ++ " | " ++ value r "bloom_level" ++ "]"

/-- The Markdown lines `build_markdown` emits for one record
(src/app.py lines 218-265), in append order: the heading; the `- Source:` and
`- Page(s):` lines when their values are non-empty; the `- Type:` line
unconditionally; a blank line, the question text, a blank line; the options
block when non-empty; the `- Answer:` and `- Explanation:` lines when their
values are non-empty; the tags line; a trailing blank line. -/
def rowLines (cols : List String) (r : Record) : List String :=
  [headerLine r]
  ++ (if value r "source" ≠ "" then ["- Source: " ++ value r "source"] else [])
  ++ (if value r "page_reference" ≠ "" then ["- Page(s): " ++ value r "page_reference"] else [])
  ++ ["- Type: " ++ value r "type", "", value r "question_text", ""]
  ++ (if optLines cols r ≠ [] then "Options:" :: optLines cols r ++ [""] else [])
  ++ (if value r "correct_answer" ≠ "" then ["- Answer: " ++ value r "correct_answer"] else [])
  ++ (if value r "explanation" ≠ "" then ["- Explanation: " ++ value r "explanation"] else [])
  ++ tagsLines r
  ++ [""]

/-- All the lines of the Markdown export: the document heading, a blank line,
then the lines of each record. -/
def mdLines (frame : Frame) : List String :=
  ["# Filtered Questions", ""] ++ frame.rows.flatMap (rowLines frame.cols)

/-- Function `build_markdown` (src/app.py lines 216-266): the lines joined with
newlines. -/
def build_markdown (frame : Frame) : String :=
  String.intercalate "\n" (mdLines frame)

/-- What one load attempt produces: the parsed document, or a reported error
message carrying the underlying cause (after which the caller holds `None`). -/
inductive LoadOutcome where
  | ok (j : Json)
  | failed (msg : String)

/-- Function `load_json` (src/app.py lines 8-15) over the outcome of reading and parsing
the file: a successful parse is returned as-is; any raised exception is caught,
reported via `st.error` with its cause, and turned into an absent document. -/
def load_json (readResult : Except String Json) : LoadOutcome :=
  match readResult with
  | .ok j => .ok j
  | .error exc => .failed ("Failed to read JSON: " ++ exc)

/-- The document value the caller keeps for a load outcome (`None` on failure). -/
def loadOutcomeValue : LoadOutcome → Option Json
  | .ok j => some j
  | .failed _ => none

/-- The dataset-loading loop (src/app.py lines 62-66): every requested source is
attempted independently and appended with its label; a failed one is carried
as an absent document rather than aborting the loop. -/
def load_datasets (inputs : List (String × Except String Json)) : List (String × Option Json) :=
  inputs.map (fun p => (p.1, loadOutcomeValue (load_json p.2)))

/-- Set a cell of a record: overwrite the existing binding in place, else append
the column at the end (a pandas column assignment). -/
def setCell (r : Record) (c : String) (v : Val) : Record :=
  match r with
  | [] => [(c, v)]
  | (k, w) :: rest => if k = c then (c, v) :: rest else (k, w) :: setCell rest c v

/-- Assignment `f["source"] = label` (src/app.py line 111): every row gets the document
label in the `source` column, which joins the column set if new. -/
def addSourceCol (f : Frame) (label : String) : Frame :=
  { cols := if "source" ∈ f.cols then f.cols else f.cols ++ ["source"]
    rows := f.rows.map (fun r => setCell r "source" (Val.sc (.s label))) }

/-- The questions-frame loop (src/app.py lines 107-112): a dataset contributes a
frame exactly when it is a dict whose `questions` field is a list; that list is
normalized and tagged with the label of the dataset as `source`. -/
def build_frames (datasets : List (String × Option Json)) : List Frame :=
  datasets.filterMap (fun p =>
    match p.2 with
    | some (Json.obj fields) =>
        match fields.lookup "questions" with
        | some (Json.arr qs) => some (addSourceCol (json_normalize qs) p.1)
        | _ => none
    | _ => none)

/-- Model of `pd.concat(frames, ignore_index=True)` (src/app.py line 114): rows in frame
order, columns the first-seen-order union. An empty frame list yields the
empty frame. -/
def concatFrames (frames : List Frame) : Frame :=
  { cols := dedupFirst (frames.flatMap Frame.cols)
    rows := frames.flatMap Frame.rows }

/-- Assignment `df[col] = df[col].astype(str)` guarded by `col in df`
(src/app.py lines 118-119): every cell of the column becomes its `str()` form
(NaN included, which becomes the string `"nan"`). -/
def astype_str_col (f : Frame) (col : String) : Frame :=
  if col ∈ f.cols then
    { f with rows := f.rows.map (fun r => setCell r col (Val.sc (.s (pyStrVal (getCell r col))))) }
  else f

/-- The working dataframe of a session (src/app.py lines 107-119): the
concatenated question frames with `correct_answer` normalized to string. -/
def build_df (datasets : List (String × Option Json)) : Frame :=
  astype_str_col (concatFrames (build_frames datasets)) "correct_answer"

/-- The state that survives an interaction cycle: the working dataframe and the
selection-key set of the session. -/
structure SessionState where
  df : Frame
  selected_ids : Finset String

/-- The effect of one interaction on the selection set: nothing, a bulk button, or an
individual checkbox toggle (`add` / `discard`, src/app.py lines 327-330). -/
inductive SelAction where
  | no_action
  | selectAllFiltered
  | clearFilteredSel
  | clearAllSel
  | toggleOn (key : String)
  | toggleOff (key : String)

/-- Apply one selection action against the currently filtered frame. -/
def apply_sel_action (filtered : Frame) (S : Finset String) : SelAction → Finset String
  | .no_action => S
  | .selectAllFiltered => select_all_filtered filtered S
  | .clearFilteredSel => clear_filtered filtered S
  | .clearAllSel => clear_all S
  | .toggleOn k => insert k S
  | .toggleOff k => S.erase k

/-- One interaction cycle (src/app.py lines 177-333): the pipeline filters a
copy of the working dataframe, the exports render the filtered frame, and the
selection set absorbs the action of the interaction; the working dataframe itself is
carried over unchanged. Returns the new state, the filtered frame, and the
Markdown export of the cycle. -/
def session_step (st : SessionState) (c : Criteria) (a : SelAction) :
    SessionState × Frame × String :=
  let filtered := applyFilters st.df c
  ({ df := st.df, selected_ids := apply_sel_action filtered st.selected_ids a },
   filtered, build_markdown filtered)

/-- A whole session: fold the interaction cycles from the initial state. -/
def run_session (st : SessionState) (steps : List (Criteria × SelAction)) : SessionState :=
  steps.foldl (fun s p => (session_step s p.1 p.2).1) st

/-- The line `l` starts with the marker `p` (character-wise). A Markdown line
"is an X line" exactly when it starts with the X marker. -/
def lineStartsWith (l p : String) : Prop := p.data <+: l.data

instance (l p : String) : Decidable (lineStartsWith l p) :=
  inferInstanceAs (Decidable (p.data <+: l.data))

/-- The field markers of the record Markdown (the lines the spec calls
optional), plus the options-block header. -/
def mdMarkers : List String :=
  ["- Source:", "- Page(s):", "- Answer:", "- Explanation:", "- Tags:", "Options:"]

/-- Whether a JSON value is an array (`isinstance(value, list)`). -/
def Json.isArr : Json → Bool
  | .arr _ => true
  | _ => false

/-- The sample question document of the end-to-end scenario of the specification. -/
def exampleDoc : Json :=
  Json.obj [("questions", Json.arr [Json.obj
    [("question_id", Json.str "Q1"), ("lesson_name", Json.str "Intro"),
     ("module", Json.num 1), ("difficulty", Json.str "easy"),
     ("bloom_level", Json.str "Remember"), ("type", Json.str "multiple_choice"),
     ("question_text", Json.str "What is X?"),
     ("options", Json.obj [("A", Json.str "a"), ("B", Json.str "b")]),
     ("correct_answer", Json.str "A"), ("tags", Json.arr [Json.str "basics"])]])]

/-- A single-document dataset list built from the sample document. -/
def exampleDatasets : List (String × Option Json) := [("quiz.json", some exampleDoc)]

lemma lineStartsWith_append (s t : String) : lineStartsWith (s ++ t) s := by
  unfold lineStartsWith
  rw [String.data_append]
  exact List.prefix_append _ _

lemma lineStartsWith_ext (s t p : String) (h : lineStartsWith s p) :
    lineStartsWith (s ++ t) p := by
  unfold lineStartsWith at h ⊢
  rw [String.data_append]
  exact h.trans (List.prefix_append _ _)

lemma not_lineStartsWith_diverge {l p q : String} (hq : lineStartsWith l q)
    (h1 : ¬ lineStartsWith p q) (h2 : ¬ lineStartsWith q p) : ¬ lineStartsWith l p := by
  intro hp
  rcases List.prefix_or_prefix_of_prefix hp hq with h | h
  · exact h2 h
  · exact h1 h

lemma headerLine_startsWith (r : Record) : lineStartsWith (headerLine r) "### " := by
  unfold headerLine
  repeat
    first
      | exact lineStartsWith_append _ _
      | apply lineStartsWith_ext

lemma mem_ite_nil {P : Prop} [Decidable P] {l : String} {xs : List String}
    (h : l ∈ if P then xs else []) : P ∧ l ∈ xs := by
  by_cases hP : P
  · rw [if_pos hP] at h; exact ⟨hP, h⟩
  · rw [if_neg hP] at h; exact absurd h (List.not_mem_nil l)

lemma optLines_shape (cols : List String) (r : Record) (l : String)
    (h : l ∈ optLines cols r) :
    ∃ k, k ∈ (["A", "B", "C", "D"] : List String) ∧
      l = "- " ++ k ++ ": " ++ value r ("options." ++ k) := by
  unfold optLines at h
  rcases List.mem_filterMap.mp h with ⟨k, hk, hsome⟩
  refine ⟨k, hk, ?_⟩
  by_cases h1 : ("options." ++ k) ∈ cols
  · rw [if_pos h1] at hsome
    by_cases h2 : value r ("options." ++ k) ≠ ""
    · rw [if_pos h2] at hsome
      exact (Option.some.injEq _ _ ▸ hsome).symm
    · rw [if_neg h2] at hsome
      cases hsome
  · rw [if_neg h1] at hsome
    cases hsome

lemma tagsLines_shape (r : Record) (l : String) (h : l ∈ tagsLines r) :
    ∃ ts, r.lookup "tags" = some (Val.lst ts) ∧ ts ≠ [] ∧
      l = "- Tags: " ++ String.intercalate ", " (ts.map pyStr) := by
  unfold tagsLines at h
  cases hts : r.lookup "tags" with
  | none => rw [hts] at h; exact absurd h (List.not_mem_nil l)
  | some v =>
    rw [hts] at h
    cases v with
    | sc a => exact absurd h (List.not_mem_nil l)
    | lst ts =>
      rcases mem_ite_nil h with ⟨hne, hl⟩
      exact ⟨ts, rfl, hne, List.mem_singleton.mp hl⟩

lemma rowLines_cases (cols : List String) (r : Record) (l : String)
    (hl : l ∈ rowLines cols r) :
    l = headerLine r
    ∨ (value r "source" ≠ "" ∧ l = "- Source: " ++ value r "source")
    ∨ (value r "page_reference" ≠ "" ∧ l = "- Page(s): " ++ value r "page_reference")
    ∨ l = "- Type: " ++ value r "type"
    ∨ l = ""
    ∨ l = value r "question_text"
    ∨ (optLines cols r ≠ [] ∧ l = "Options:")
    ∨ (∃ k, k ∈ (["A", "B", "C", "D"] : List String) ∧
        l = "- " ++ k ++ ": " ++ value r ("options." ++ k))
    ∨ (value r "correct_answer" ≠ "" ∧ l = "- Answer: " ++ value r "correct_answer")
    ∨ (value r "explanation" ≠ "" ∧ l = "- Explanation: " ++ value r "explanation")
    ∨ (∃ ts, r.lookup "tags" = some (Val.lst ts) ∧ ts ≠ [] ∧
        l = "- Tags: " ++ String.intercalate ", " (ts.map pyStr)) := by
  unfold rowLines at hl
  simp only [List.append_assoc, List.mem_append, List.mem_cons, List.mem_singleton,
    List.not_mem_nil, or_false, false_or] at hl
  rcases hl with h | h | h | h | h
  · exact Or.inl h
  · rcases mem_ite_nil h with ⟨hc, hm⟩
    exact Or.inr (Or.inl ⟨hc, List.mem_singleton.mp hm⟩)
  · rcases mem_ite_nil h with ⟨hc, hm⟩
    exact Or.inr (Or.inr (Or.inl ⟨hc, List.mem_singleton.mp hm⟩))
  · rcases h with h | h | h | h
    · exact Or.inr (Or.inr (Or.inr (Or.inl h)))
    · exact Or.inr (Or.inr (Or.inr (Or.inr (Or.inl h))))
    · exact Or.inr (Or.inr (Or.inr (Or.inr (Or.inr (Or.inl h)))))
    · exact Or.inr (Or.inr (Or.inr (Or.inr (Or.inl h))))
  · rcases h with h | h | h | h
    · rcases mem_ite_nil h with ⟨hc, hm⟩
      rcases List.mem_cons.mp hm with h1 | h1
      · exact Or.inr (Or.inr (Or.inr (Or.inr (Or.inr (Or.inr (Or.inl ⟨hc, h1⟩))))))
      · rcases List.mem_append.mp h1 with h2 | h2
        · exact Or.inr (Or.inr (Or.inr (Or.inr (Or.inr (Or.inr (Or.inr
            (Or.inl (optLines_shape cols r l h2))))))))
        · exact Or.inr (Or.inr (Or.inr (Or.inr (Or.inl (List.mem_singleton.mp h2)))))
    · rcases mem_ite_nil h with ⟨hc, hm⟩
      exact Or.inr (Or.inr (Or.inr (Or.inr (Or.inr (Or.inr (Or.inr (Or.inr
        (Or.inl ⟨hc, List.mem_singleton.mp hm⟩))))))))
    · rcases mem_ite_nil h with ⟨hc, hm⟩
      exact Or.inr (Or.inr (Or.inr (Or.inr (Or.inr (Or.inr (Or.inr (Or.inr (Or.inr
        (Or.inl ⟨hc, List.mem_singleton.mp hm⟩)))))))))
    · rcases h with h1 | h1
      · exact Or.inr (Or.inr (Or.inr (Or.inr (Or.inr (Or.inr (Or.inr (Or.inr (Or.inr
          (Or.inr (tagsLines_shape r l h1))))))))))
      · exact Or.inr (Or.inr (Or.inr (Or.inr (Or.inl h1))))

lemma optLines_eq_nil (cols : List String) (r : Record)
    (hopt : ∀ k ∈ (["A", "B", "C", "D"] : List String),
      ("options." ++ k) ∈ cols → value r ("options." ++ k) = "") :
    optLines cols r = [] := by
  unfold optLines
  rw [List.filterMap_eq_nil]
  intro k hk
  by_cases h1 : ("options." ++ k) ∈ cols
  · rw [if_pos h1, if_neg (fun hne => hne (hopt k hk h1))]
  · rw [if_neg h1]

lemma rowLines_no_marker (cols : List String) (r : Record) (m : String)
    (hhdr : ¬ lineStartsWith (headerLine r) m)
    (hsrc : value r "source" ≠ "" → ¬ lineStartsWith ("- Source: " ++ value r "source") m)
    (hpage : value r "page_reference" ≠ "" →
      ¬ lineStartsWith ("- Page(s): " ++ value r "page_reference") m)
    (htype : ¬ lineStartsWith ("- Type: " ++ value r "type") m)
    (hblank : ¬ lineStartsWith "" m)
    (htext : ¬ lineStartsWith (value r "question_text") m)
    (hopth : optLines cols r ≠ [] → ¬ lineStartsWith "Options:" m)
    (hopt : ∀ k, k ∈ (["A", "B", "C", "D"] : List String) →
      ¬ lineStartsWith ("- " ++ k ++ ": " ++ value r ("options." ++ k)) m)
    (hans : value r "correct_answer" ≠ "" →
      ¬ lineStartsWith ("- Answer: " ++ value r "correct_answer") m)
    (hexp : value r "explanation" ≠ "" →
      ¬ lineStartsWith ("- Explanation: " ++ value r "explanation") m)
    (htags : ∀ ts, r.lookup "tags" = some (Val.lst ts) → ts ≠ [] →
      ¬ lineStartsWith ("- Tags: " ++ String.intercalate ", " (ts.map pyStr)) m) :
    ∀ l ∈ rowLines cols r, ¬ lineStartsWith l m := by
  intro l hl
  rcases rowLines_cases cols r l hl with
    h | ⟨hc, h⟩ | ⟨hc, h⟩ | h | h | h | ⟨hc, h⟩ | ⟨k, hk, h⟩ | ⟨hc, h⟩ | ⟨hc, h⟩ |
    ⟨ts, hts, hne, h⟩
  · exact h ▸ hhdr
  · exact h ▸ hsrc hc
  · exact h ▸ hpage hc
  · exact h ▸ htype
  · exact h ▸ hblank
  · exact h ▸ htext
  · exact h ▸ hopth hc
  · exact h ▸ hopt k hk
  · exact h ▸ hans hc
  · exact h ▸ hexp hc
  · exact h ▸ htags ts hts hne

lemma apply_in_filter_cols (f : Frame) (c : String) (v : List Val) :
    (apply_in_filter f c v).cols = f.cols := by
  unfold apply_in_filter
  split <;> rfl

lemma apply_in_filter_sublist (f : Frame) (c : String) (v : List Val) :
    (apply_in_filter f c v).rows.Sublist f.rows := by
  unfold apply_in_filter
  split
  · exact List.filter_sublist _
  · exact List.Sublist.refl _

lemma apply_in_filter_nil (f : Frame) (c : String) : apply_in_filter f c [] = f := by
  simp [apply_in_filter]

lemma module_filter_cols (f : Frame) (v : List Val) : (module_filter f v).cols = f.cols := by
  unfold module_filter
  split <;> rfl

lemma module_filter_sublist (f : Frame) (v : List Val) :
    (module_filter f v).rows.Sublist f.rows := by
  unfold module_filter
  split
  · exact List.filter_sublist _
  · exact List.Sublist.refl _

lemma module_filter_nil (f : Frame) : module_filter f [] = f := by
  simp [module_filter]

lemma tag_filter_cols (f : Frame) (v : List String) : (tag_filter f v).cols = f.cols := by
  unfold tag_filter
  split <;> rfl

lemma tag_filter_sublist (f : Frame) (v : List String) :
    (tag_filter f v).rows.Sublist f.rows := by
  unfold tag_filter
  split
  · exact List.filter_sublist _
  · exact List.Sublist.refl _

lemma tag_filter_nil (f : Frame) : tag_filter f [] = f := by
  simp [tag_filter]

lemma text_filter_cols (f : Frame) (s : String) : (text_filter f s).cols = f.cols := by
  unfold text_filter
  split <;> rfl

lemma text_filter_sublist (f : Frame) (s : String) :
    (text_filter f s).rows.Sublist f.rows := by
  unfold text_filter
  split
  · exact List.filter_sublist _
  · exact List.Sublist.refl _

lemma text_filter_empty (f : Frame) : text_filter f "" = f := by
  simp [text_filter]

lemma apply_in_filter_eq (f : Frame) (c : String) (v : List Val) :
    apply_in_filter f c v =
      { cols := f.cols
        rows := if c ∈ f.cols ∧ v ≠ [] then
            f.rows.filter (fun r => decide (getCell r c ∈ v))
          else f.rows } := by
  unfold apply_in_filter
  split_ifs <;> rfl

lemma module_filter_eq (f : Frame) (v : List Val) :
    module_filter f v =
      { cols := f.cols
        rows := if "module" ∈ f.cols ∧ v ≠ [] then
            f.rows.filter (fun r => decide (pyStrVal (getCell r "module") ∈ v.map pyStrVal))
          else f.rows } := by
  unfold module_filter
  split_ifs <;> rfl

lemma rows_ite_filter_comm (rows : List Record) (P Q : Prop) [Decidable P] [Decidable Q]
    (p q : Record → Bool) :
    (if Q then (if P then rows.filter p else rows).filter q
     else (if P then rows.filter p else rows))
    = (if P then (if Q then rows.filter q else rows).filter p
       else (if Q then rows.filter q else rows)) := by
  by_cases hP : P <;> by_cases hQ : Q
  · simp only [if_pos hP, if_pos hQ]
    exact List.filter_comm (p := q) p rows
  · simp only [if_pos hP, if_neg hQ]
  · simp only [if_neg hP, if_pos hQ]
  · simp only [if_neg hP, if_neg hQ]

lemma aif_aif_comm (f : Frame) (c1 c2 : String) (v1 v2 : List Val) :
    apply_in_filter (apply_in_filter f c1 v1) c2 v2
    = apply_in_filter (apply_in_filter f c2 v2) c1 v1 := by
  rw [apply_in_filter_eq f c1 v1, apply_in_filter_eq, apply_in_filter_eq f c2 v2,
    apply_in_filter_eq]
  exact congrArg (Frame.mk f.cols) (rows_ite_filter_comm f.rows _ _ _ _)

lemma aif_mod_comm (f : Frame) (c : String) (v : List Val) (m : List Val) :
    module_filter (apply_in_filter f c v) m = apply_in_filter (module_filter f m) c v := by
  rw [apply_in_filter_eq f c v, module_filter_eq, module_filter_eq f m, apply_in_filter_eq]
  exact congrArg (Frame.mk f.cols) (rows_ite_filter_comm f.rows _ _ _ _)

lemma mod_aif_comm (f : Frame) (c : String) (v : List Val) (m : List Val) :
    apply_in_filter (module_filter f m) c v = module_filter (apply_in_filter f c v) m :=
  (aif_mod_comm f c v m).symm

lemma mod_mod_comm (f : Frame) (v1 v2 : List Val) :
    module_filter (module_filter f v1) v2 = module_filter (module_filter f v2) v1 := by
  rw [module_filter_eq f v1, module_filter_eq, module_filter_eq f v2, module_filter_eq]
  exact congrArg (Frame.mk f.cols) (rows_ite_filter_comm f.rows _ _ _ _)

/-- The pipeline applied to a tags-free, search-free criteria is the seven
column steps in source order. -/
lemma applyFilters_cols_only (df : Frame) (sel : FCol → List Val) :
    applyFilters df { colSel := sel, tags_sel := [], search_text := "" }
    = colStep (colStep (colStep (colStep (colStep (colStep (colStep df
        .lesson_name (sel .lesson_name)) .difficulty (sel .difficulty))
        .bloom_level (sel .bloom_level)) .qtype (sel .qtype))
        .module_col (sel .module_col)) .lesson_code (sel .lesson_code))
        .source (sel .source) := by
  simp only [applyFilters, tag_filter_nil, text_filter_empty, colStep, FCol.colName]

lemma colStep_nil (f : Frame) (c : FCol) : colStep f c [] = f := by
  cases c <;> simp [colStep, apply_in_filter, module_filter]

lemma colStep_comm (f : Frame) (c1 c2 : FCol) (v1 v2 : List Val) :
    colStep (colStep f c1 v1) c2 v2 = colStep (colStep f c2 v2) c1 v1 := by
  cases c1 <;> cases c2 <;>
    first
      | exact aif_aif_comm ..
      | exact aif_mod_comm ..
      | exact mod_aif_comm ..
      | exact mod_mod_comm ..

lemma foldl_insert_eq_union (l : List String) (S : Finset String) :
    l.foldl (fun s k => insert k s) S = S ∪ l.toFinset := by
  induction l generalizing S with
  | nil => simp
  | cons a t ih =>
      rw [List.foldl_cons, ih, List.toFinset_cons]
      ext x
      simp only [Finset.mem_union, Finset.mem_insert, List.mem_toFinset]
      tauto

lemma lookup_setCell_self (r : Record) (c : String) (v : Val) :
    (setCell r c v).lookup c = some v := by
  induction r with
  | nil => simp [setCell]
  | cons p t ih =>
      rcases p with ⟨k, w⟩
      by_cases hk : k = c
      · simp [setCell, hk]
      · simp [setCell, hk, List.lookup, ih, beq_false_of_ne (Ne.symm hk)]

lemma lookup_setCell_ne (r : Record) (c c2 : String) (v : Val) (h : c2 ≠ c) :
    (setCell r c v).lookup c2 = r.lookup c2 := by
  induction r with
  | nil => simp [setCell, List.lookup, beq_false_of_ne h]
  | cons p t ih =>
      rcases p with ⟨k, w⟩
      by_cases hk : k = c
      · subst hk
        simp [setCell, List.lookup, beq_false_of_ne h]
      · simp [setCell, hk, List.lookup, ih]

lemma getCell_setCell_self (r : Record) (c : String) (v : Val) :
    getCell (setCell r c v) c = v := by
  simp [getCell, lookup_setCell_self]

lemma getCell_setCell_ne (r : Record) (c c2 : String) (v : Val) (h : c2 ≠ c) :
    getCell (setCell r c v) c2 = getCell r c2 := by
  simp [getCell, lookup_setCell_ne r c c2 v h]

lemma session_step_df (st : SessionState) (c : Criteria) (a : SelAction) :
    ((session_step st c a).1).df = st.df := rfl

lemma run_session_df (st : SessionState) (steps : List (Criteria × SelAction)) :
    (run_session st steps).df = st.df := by
  induction steps generalizing st with
  | nil => rfl
  | cons p t ih => rw [run_session, List.foldl_cons, ← run_session, ih, session_step_df]

/-- C5: for every record set and every filter criteria, the filtered result is a
subsequence of the rows of the input frame over the same columns; and when the
criteria impose no restriction (all allow-lists empty and no search text) the
pipeline returns the frame unchanged. -/
theorem c5_filter_subset_and_identity (df : Frame) (c : Criteria) :
    (applyFilters df c).rows.Sublist df.rows
    ∧ (applyFilters df c).cols = df.cols
    ∧ applyFilters df emptyCriteria = df := by
  refine ⟨?_, ?_, ?_⟩
  · simp only [applyFilters]
    exact ((text_filter_sublist _ _).trans ((tag_filter_sublist _ _).trans
      ((apply_in_filter_sublist _ _ _).trans ((apply_in_filter_sublist _ _ _).trans
      ((module_filter_sublist _ _).trans ((apply_in_filter_sublist _ _ _).trans
      ((apply_in_filter_sublist _ _ _).trans ((apply_in_filter_sublist _ _ _).trans
      (apply_in_filter_sublist _ _ _)))))))))
  · simp only [applyFilters, text_filter_cols, tag_filter_cols, apply_in_filter_cols,
      module_filter_cols]
  · simp [applyFilters, emptyCriteria, apply_in_filter_nil, module_filter_nil,
      tag_filter_nil, text_filter_empty]

/-- C6: column filters combine conjunctively — filtering by two column
allow-lists at once equals filtering by the first and then filtering the result
by the second. -/
theorem c6_conjunctive_filters (df : Frame) (colA colB : FCol) (hne : colA ≠ colB)
    (A1 B1 : List Val) :
    applyFilters df
      { colSel := fun c => if c = colA then A1 else if c = colB then B1 else []
        tags_sel := [], search_text := "" }
    = applyFilters
        (applyFilters df
          { colSel := fun c => if c = colA then A1 else [], tags_sel := [], search_text := "" })
        { colSel := fun c => if c = colB then B1 else [], tags_sel := [], search_text := "" } := by
  rw [applyFilters_cols_only, applyFilters_cols_only, applyFilters_cols_only]
  cases colA <;> cases colB <;>
    first
      | exact absurd rfl hne
      | (simp [colStep_nil]; done)
      | (simp [colStep_nil]
         exact colStep_comm ..)

/-- Witness for C6 at a concrete frame and a concrete pair of distinct columns. -/
theorem c6_conjunctive_filters_witness :
    applyFilters (Frame.mk ["lesson_name", "difficulty"] [])
      { colSel := fun c => if c = FCol.lesson_name then [Val.sc (Scalar.s "L")]
          else if c = FCol.difficulty then [Val.sc (Scalar.s "easy")] else []
        tags_sel := [], search_text := "" }
    = applyFilters
        (applyFilters (Frame.mk ["lesson_name", "difficulty"] [])
          { colSel := fun c => if c = FCol.lesson_name then [Val.sc (Scalar.s "L")] else []
            tags_sel := [], search_text := "" })
        { colSel := fun c => if c = FCol.difficulty then [Val.sc (Scalar.s "easy")] else []
          tags_sel := [], search_text := "" } :=
  c6_conjunctive_filters (Frame.mk ["lesson_name", "difficulty"] [])
    FCol.lesson_name FCol.difficulty (by decide)
    [Val.sc (Scalar.s "L")] [Val.sc (Scalar.s "easy")]

/-- C4 fails as stated: a record whose `lesson_code` is the integer `5` is
dropped by the allow-list `["5"]` even though the string-coerced forms match —
only the module filter coerces to string. -/
theorem c4_counterexample :
    (apply_in_filter
        (Frame.mk ["lesson_code"] [[("lesson_code", Val.sc (Scalar.i 5))]])
        "lesson_code" [Val.sc (Scalar.s "5")]).rows = []
    ∧ pyStrVal (getCell [("lesson_code", Val.sc (Scalar.i 5))] "lesson_code")
        ∈ [Val.sc (Scalar.s "5")].map pyStrVal := by
  refine ⟨?_, by decide⟩
  rfl

/-- C4 (amended): the module filter keeps a record iff the string-coerced forms
match; every other column allow-list filter keeps a record iff its raw cell
value is a member of the allow-list (no string coercion); an empty allow-list
keeps every record. -/
theorem c4_amended (f : Frame) (column : String) (values : List Val) (r : Record) :
    (column ∈ f.cols →
      (r ∈ (apply_in_filter f column values).rows ↔
        r ∈ f.rows ∧ (values = [] ∨ getCell r column ∈ values)))
    ∧ ("module" ∈ f.cols →
      (r ∈ (module_filter f values).rows ↔
        r ∈ f.rows ∧ (values = [] ∨ pyStrVal (getCell r "module") ∈ values.map pyStrVal))) := by
  constructor
  · intro hcol
    by_cases hv : values = []
    · subst hv
      simp [apply_in_filter_nil]
    · simp [apply_in_filter, hcol, hv, List.mem_filter]
  · intro hcol
    by_cases hv : values = []
    · subst hv
      simp [module_filter_nil]
    · simp [module_filter, hcol, hv, List.mem_filter]

/-- Witness for C4 (amended): the integer module `1` is kept by the allow-list
`["1"]` because the module filter compares string forms. -/
theorem c4_amended_witness :
    [("module", Val.sc (Scalar.i 1))]
      ∈ (module_filter (Frame.mk ["module"] [[("module", Val.sc (Scalar.i 1))]])
          [Val.sc (Scalar.s "1")]).rows
    ↔ [("module", Val.sc (Scalar.i 1))] ∈ [[("module", Val.sc (Scalar.i 1))]]
        ∧ ([Val.sc (Scalar.s "1")] = ([] : List Val)
           ∨ pyStrVal (getCell [("module", Val.sc (Scalar.i 1))] "module")
               ∈ [Val.sc (Scalar.s "1")].map pyStrVal) :=
  (c4_amended (Frame.mk ["module"] [[("module", Val.sc (Scalar.i 1))]])
    "module" [Val.sc (Scalar.s "1")] [("module", Val.sc (Scalar.i 1))]).2 (by decide)

/-- C7: for a non-empty tag allow-list, a list-valued `tags` cell matches iff at
least the string form of one element is in the allow-list (OR semantics), a scalar
`tags` cell is treated as the single-element case, and the tag filter keeps
exactly the rows whose `tags` cell matches. -/
theorem c7_tag_or_semantics (tags_sel : List String) (f : Frame) (r : Record)
    (hne : tags_sel ≠ []) :
    (∀ xs : List Scalar,
      (has_any_tag tags_sel (Val.lst xs) = true ↔ ∃ t ∈ xs, pyStr t ∈ tags_sel))
    ∧ (∀ a : Scalar, (has_any_tag tags_sel (Val.sc a) = true ↔ pyStr a ∈ tags_sel))
    ∧ ("tags" ∈ f.cols →
      (r ∈ (tag_filter f tags_sel).rows ↔
        r ∈ f.rows ∧ has_any_tag tags_sel (getCell r "tags") = true)) := by
  refine ⟨?_, ?_, ?_⟩
  · intro xs
    simp [has_any_tag]
  · intro a
    simp [has_any_tag]
  · intro hcol
    simp [tag_filter, hne, hcol, List.mem_filter]

/-- Witness for C7: a two-tag record matches the allow-list `["basics"]` through
its second tag alone. -/
theorem c7_tag_or_semantics_witness :
    has_any_tag ["basics"] (Val.lst [Scalar.s "x", Scalar.s "basics"]) = true
    ↔ ∃ t ∈ [Scalar.s "x", Scalar.s "basics"], pyStr t ∈ ["basics"] :=
  (c7_tag_or_semantics ["basics"] (Frame.mk ["tags"] []) [] (by decide)).1
    [Scalar.s "x", Scalar.s "basics"]

/-- C3: over the selection keys of the filtered frame, "select all filtered" is union
with the visible keys, "clear filtered from selection" removes exactly the
visible keys (keys outside the filter survive), and "clear all" empties the
selection. -/
theorem c3_selection_bulk_ops (F : Frame) (S : Finset String)
    (h1 : "question_id" ∈ F.cols) (h2 : "source" ∈ F.cols) :
    select_all_filtered F S = S ∪ (selKeyList F).toFinset
    ∧ clear_filtered F S = S \ (selKeyList F).toFinset
    ∧ clear_all S = ∅
    ∧ (∀ k ∈ S, k ∉ (selKeyList F).toFinset → k ∈ clear_filtered F S) := by
  refine ⟨foldl_insert_eq_union _ _, rfl, rfl, ?_⟩
  intro k hk hnk
  simp [clear_filtered, Finset.mem_sdiff, hk, hnk]

/-- Witness for C3 at a concrete one-row frame and one outside selection key. -/
theorem c3_selection_bulk_ops_witness :
    select_all_filtered
        (Frame.mk ["question_id", "source"]
          [[("question_id", Val.sc (Scalar.s "Q1")), ("source", Val.sc (Scalar.s "a.json"))]])
        {"other::b.json"}
    = {"other::b.json"}
      ∪ (selKeyList (Frame.mk ["question_id", "source"]
          [[("question_id", Val.sc (Scalar.s "Q1")),
            ("source", Val.sc (Scalar.s "a.json"))]])).toFinset :=
  (c3_selection_bulk_ops
    (Frame.mk ["question_id", "source"]
      [[("question_id", Val.sc (Scalar.s "Q1")), ("source", Val.sc (Scalar.s "a.json"))]])
    {"other::b.json"} (by decide) (by decide)).1

/-- C9: every load attempt either returns the parsed document or reports a load
error carrying the underlying cause and yields an absent document; the
attempt never escapes as an exception, and in the dataset loop every
successfully parsed document is still loaded and labelled whatever happens to
the other inputs. -/
theorem c9_loader_recovery (inputs : List (String × Except String Json))
    (lbl : String) (j : Json) (hmem : (lbl, Except.ok j) ∈ inputs) :
    (∀ r : Except String Json,
      (∃ d, r = Except.ok d ∧ load_json r = LoadOutcome.ok d)
      ∨ (∃ e, r = Except.error e
          ∧ load_json r = LoadOutcome.failed ("Failed to read JSON: " ++ e)
          ∧ loadOutcomeValue (load_json r) = none))
    ∧ (load_datasets inputs).length = inputs.length
    ∧ (lbl, some j) ∈ load_datasets inputs := by
  refine ⟨?_, by simp [load_datasets], ?_⟩
  · intro r
    cases r with
    | ok d => exact Or.inl ⟨d, rfl, rfl⟩
    | error e => exact Or.inr ⟨e, rfl, rfl, rfl⟩
  · exact List.mem_map.mpr ⟨(lbl, Except.ok j), hmem, rfl⟩

/-- Witness for C9: with one good and one failing input, the good document
still loads. -/
theorem c9_loader_recovery_witness :
    ("a.json", some (Json.num 1)) ∈ load_datasets
      [("a.json", Except.ok (Json.num 1)), ("b.json", Except.error "boom")] :=
  (c9_loader_recovery
    [("a.json", Except.ok (Json.num 1)), ("b.json", Except.error "boom")]
    "a.json" (Json.num 1) (List.mem_cons_self _ _)).2.2

/-- C10: no interaction sequence (filtering, exporting, selection updates)
changes the working dataframe, and the working dataframe differs from the raw
concatenated flattening only in the `correct_answer` column: same columns, same
row count, and identical cells in every other column. -/
theorem c10_frame_never_mutated (datasets : List (String × Option Json))
    (steps : List (Criteria × SelAction)) (S0 : Finset String) :
    (run_session { df := build_df datasets, selected_ids := S0 } steps).df
      = build_df datasets
    ∧ (build_df datasets).cols = (concatFrames (build_frames datasets)).cols
    ∧ (build_df datasets).rows.length
        = (concatFrames (build_frames datasets)).rows.length
    ∧ (∀ c, c ≠ "correct_answer" →
        (build_df datasets).rows.map (fun r => getCell r c)
          = (concatFrames (build_frames datasets)).rows.map (fun r => getCell r c)) := by
  refine ⟨run_session_df _ _, ?_, ?_, ?_⟩
  · unfold build_df astype_str_col
    split <;> rfl
  · unfold build_df astype_str_col
    split <;> simp
  · intro c hc
    unfold build_df astype_str_col
    split
    · simp only [List.map_map]
      exact List.map_congr_left
        (fun r _ => getCell_setCell_ne r "correct_answer" c _ hc)
    · rfl

/-- Witness for C10 on the sample single-document dataset and a non-normalized
column. -/
theorem c10_frame_never_mutated_witness :
    (build_df exampleDatasets).rows.map (fun r => getCell r "lesson_name")
      = (concatFrames (build_frames exampleDatasets)).rows.map
          (fun r => getCell r "lesson_name") :=
  (c10_frame_never_mutated exampleDatasets [] ∅).2.2.2 "lesson_name" (by decide)

/-- C2 fails as stated: on an object whose `other` array precedes its
`questions` array, the flattener flattens `other`, not `questions` — the
result differs from the normalization of the `questions` array. -/
theorem c2_counterexample :
    ([("other", Json.arr [Json.obj [("a", Json.num 1)]]),
      ("questions", Json.arr [Json.obj [("b", Json.num 2)]])].lookup "questions"
      = some (Json.arr [Json.obj [("b", Json.num 2)]]))
    ∧ to_dataframe (some (Json.obj
        [("other", Json.arr [Json.obj [("a", Json.num 1)]]),
         ("questions", Json.arr [Json.obj [("b", Json.num 2)]])]))
      = some (json_normalize [Json.obj [("a", Json.num 1)]])
    ∧ to_dataframe (some (Json.obj
        [("other", Json.arr [Json.obj [("a", Json.num 1)]]),
         ("questions", Json.arr [Json.obj [("b", Json.num 2)]])]))
      ≠ some (json_normalize [Json.obj [("b", Json.num 2)]]) := by
  refine ⟨rfl, rfl, ?_⟩
  have ea : json_normalize [Json.obj [("a", Json.num 1)]]
      = Frame.mk ["a"] [[("a", Val.sc (Scalar.i 1))]] := by
    simp [json_normalize, normalizeRecord, flattenFields, dedupFirst, scalarOfJson]
  have eb : json_normalize [Json.obj [("b", Json.num 2)]]
      = Frame.mk ["b"] [[("b", Val.sc (Scalar.i 2))]] := by
    simp [json_normalize, normalizeRecord, flattenFields, dedupFirst, scalarOfJson]
  rw [show to_dataframe (some (Json.obj
        [("other", Json.arr [Json.obj [("a", Json.num 1)]]),
         ("questions", Json.arr [Json.obj [("b", Json.num 2)]])]))
      = some (json_normalize [Json.obj [("a", Json.num 1)]]) from rfl, ea, eb]
  decide

/-- C2 (amended): `to_dataframe` flattens the first array-valued top-level
field in insertion order, with no preference for `questions`; an object with no
array-valued field becomes a single record; the first-array search inspects the
fields in insertion order. -/
theorem c2_amended (fields : List (String × Json)) (k : String) (v : Json)
    (rest : List (String × Json)) (xs : List Json) :
    (firstArrayField fields = some xs →
      to_dataframe (some (Json.obj fields)) = some (json_normalize xs))
    ∧ (firstArrayField fields = none →
      to_dataframe (some (Json.obj fields)) = some (json_normalize [Json.obj fields]))
    ∧ firstArrayField ((k, Json.arr xs) :: rest) = some xs
    ∧ (v.isArr = false → firstArrayField ((k, v) :: rest) = firstArrayField rest)
    ∧ firstArrayField ([] : List (String × Json)) = none := by
  refine ⟨?_, ?_, rfl, ?_, rfl⟩
  · intro h
    simp [to_dataframe, h]
  · intro h
    simp [to_dataframe, h]
  · intro h
    cases v <;> simp_all [Json.isArr, firstArrayField]

/-- Witness for C2 (amended) on the counterexample object: the first array
field wins. -/
theorem c2_amended_witness :
    to_dataframe (some (Json.obj
        [("other", Json.arr [Json.obj [("a", Json.num 1)]]),
         ("questions", Json.arr [Json.obj [("b", Json.num 2)]])]))
      = some (json_normalize [Json.obj [("a", Json.num 1)]]) :=
  (c2_amended
    [("other", Json.arr [Json.obj [("a", Json.num 1)]]),
     ("questions", Json.arr [Json.obj [("b", Json.num 2)]])]
    "other" (Json.num 0) [] [Json.obj [("a", Json.num 1)]]).1 rfl

/-- C1 fails as stated: a record with no `type` field still gets a `- Type: `
line in the Markdown export — the Type line is emitted unconditionally. -/
theorem c1_counterexample :
    value [("question_id", Val.sc (Scalar.s "Q2"))] "type" = ""
    ∧ "- Type: "
        ∈ mdLines (Frame.mk ["question_id"] [[("question_id", Val.sc (Scalar.s "Q2"))]]) := by
  exact ⟨rfl, by decide⟩

/-- C1 (amended): in the Markdown of a record, the `- Source:`, `- Page(s):`,
Options, `- Answer:`, `- Explanation:` and `- Tags:` lines are emitted only
when the corresponding field is present and non-empty (given that the question
text does not itself begin with one of the field markers), but the `- Type:`
line is emitted unconditionally, with an empty value when the field is absent
or empty. -/
theorem c1_amended_field_omission (cols : List String) (r : Record)
    (htext : ∀ p ∈ mdMarkers, ¬ lineStartsWith (value r "question_text") p) :
    (value r "source" = "" →
      ∀ l ∈ rowLines cols r, ¬ lineStartsWith l "- Source:")
    ∧ (value r "page_reference" = "" →
      ∀ l ∈ rowLines cols r, ¬ lineStartsWith l "- Page(s):")
    ∧ ((∀ k ∈ (["A", "B", "C", "D"] : List String),
          ("options." ++ k) ∈ cols → value r ("options." ++ k) = "") →
      ∀ l ∈ rowLines cols r, ¬ lineStartsWith l "Options:")
    ∧ (value r "correct_answer" = "" →
      ∀ l ∈ rowLines cols r, ¬ lineStartsWith l "- Answer:")
    ∧ (value r "explanation" = "" →
      ∀ l ∈ rowLines cols r, ¬ lineStartsWith l "- Explanation:")
    ∧ ((∀ ts, r.lookup "tags" = some (Val.lst ts) → ts = []) →
      ∀ l ∈ rowLines cols r, ¬ lineStartsWith l "- Tags:")
    ∧ ("- Type: " ++ value r "type") ∈ rowLines cols r := by
  refine ⟨?_, ?_, ?_, ?_, ?_, ?_, ?_⟩
  · intro hempty
    refine rowLines_no_marker cols r "- Source:" ?_ ?_ ?_ ?_ ?_ ?_ ?_ ?_ ?_ ?_ ?_
    · exact not_lineStartsWith_diverge (headerLine_startsWith r) (by decide) (by decide)
    · exact fun hne => absurd hempty hne
    · exact fun _ =>
        not_lineStartsWith_diverge (lineStartsWith_append _ _) (by decide) (by decide)
    · exact not_lineStartsWith_diverge (lineStartsWith_append _ _) (by decide) (by decide)
    · decide
    · exact htext _ (by decide)
    · exact fun _ => by decide
    · intro k hk
      simp only [List.mem_cons, List.mem_singleton, List.not_mem_nil, or_false] at hk
      rcases hk with rfl | rfl | rfl | rfl <;>
        exact not_lineStartsWith_diverge (lineStartsWith_append _ _) (by decide) (by decide)
    · exact fun _ =>
        not_lineStartsWith_diverge (lineStartsWith_append _ _) (by decide) (by decide)
    · exact fun _ =>
        not_lineStartsWith_diverge (lineStartsWith_append _ _) (by decide) (by decide)
    · exact fun ts hts hne =>
        not_lineStartsWith_diverge (lineStartsWith_append _ _) (by decide) (by decide)
  · intro hempty
    refine rowLines_no_marker cols r "- Page(s):" ?_ ?_ ?_ ?_ ?_ ?_ ?_ ?_ ?_ ?_ ?_
    · exact not_lineStartsWith_diverge (headerLine_startsWith r) (by decide) (by decide)
    · exact fun _ =>
        not_lineStartsWith_diverge (lineStartsWith_append _ _) (by decide) (by decide)
    · exact fun hne => absurd hempty hne
    · exact not_lineStartsWith_diverge (lineStartsWith_append _ _) (by decide) (by decide)
    · decide
    · exact htext _ (by decide)
    · exact fun _ => by decide
    · intro k hk
      simp only [List.mem_cons, List.mem_singleton, List.not_mem_nil, or_false] at hk
      rcases hk with rfl | rfl | rfl | rfl <;>
        exact not_lineStartsWith_diverge (lineStartsWith_append _ _) (by decide) (by decide)
    · exact fun _ =>
        not_lineStartsWith_diverge (lineStartsWith_append _ _) (by decide) (by decide)
    · exact fun _ =>
        not_lineStartsWith_diverge (lineStartsWith_append _ _) (by decide) (by decide)
    · exact fun ts hts hne =>
        not_lineStartsWith_diverge (lineStartsWith_append _ _) (by decide) (by decide)
  · intro hopts
    refine rowLines_no_marker cols r "Options:" ?_ ?_ ?_ ?_ ?_ ?_ ?_ ?_ ?_ ?_ ?_
    · exact not_lineStartsWith_diverge (headerLine_startsWith r) (by decide) (by decide)
    · exact fun _ =>
        not_lineStartsWith_diverge (lineStartsWith_append _ _) (by decide) (by decide)
    · exact fun _ =>
        not_lineStartsWith_diverge (lineStartsWith_append _ _) (by decide) (by decide)
    · exact not_lineStartsWith_diverge (lineStartsWith_append _ _) (by decide) (by decide)
    · decide
    · exact htext _ (by decide)
    · exact fun hne => absurd (optLines_eq_nil cols r hopts) hne
    · intro k hk
      simp only [List.mem_cons, List.mem_singleton, List.not_mem_nil, or_false] at hk
      rcases hk with rfl | rfl | rfl | rfl <;>
        exact not_lineStartsWith_diverge (lineStartsWith_append _ _) (by decide) (by decide)
    · exact fun _ =>
        not_lineStartsWith_diverge (lineStartsWith_append _ _) (by decide) (by decide)
    · exact fun _ =>
        not_lineStartsWith_diverge (lineStartsWith_append _ _) (by decide) (by decide)
    · exact fun ts hts hne =>
        not_lineStartsWith_diverge (lineStartsWith_append _ _) (by decide) (by decide)
  · intro hempty
    refine rowLines_no_marker cols r "- Answer:" ?_ ?_ ?_ ?_ ?_ ?_ ?_ ?_ ?_ ?_ ?_
    · exact not_lineStartsWith_diverge (headerLine_startsWith r) (by decide) (by decide)
    · exact fun _ =>
        not_lineStartsWith_diverge (lineStartsWith_append _ _) (by decide) (by decide)
    · exact fun _ =>
        not_lineStartsWith_diverge (lineStartsWith_append _ _) (by decide) (by decide)
    · exact not_lineStartsWith_diverge (lineStartsWith_append _ _) (by decide) (by decide)
    · decide
    · exact htext _ (by decide)
    · exact fun _ => by decide
    · intro k hk
      simp only [List.mem_cons, List.mem_singleton, List.not_mem_nil, or_false] at hk
      rcases hk with rfl | rfl | rfl | rfl <;>
        exact not_lineStartsWith_diverge (lineStartsWith_append _ _) (by decide) (by decide)
    · exact fun hne => absurd hempty hne
    · exact fun _ =>
        not_lineStartsWith_diverge (lineStartsWith_append _ _) (by decide) (by decide)
    · exact fun ts hts hne =>
        not_lineStartsWith_diverge (lineStartsWith_append _ _) (by decide) (by decide)
  · intro hempty
    refine rowLines_no_marker cols r "- Explanation:" ?_ ?_ ?_ ?_ ?_ ?_ ?_ ?_ ?_ ?_ ?_
    · exact not_lineStartsWith_diverge (headerLine_startsWith r) (by decide) (by decide)
    · exact fun _ =>
        not_lineStartsWith_diverge (lineStartsWith_append _ _) (by decide) (by decide)
    · exact fun _ =>
        not_lineStartsWith_diverge (lineStartsWith_append _ _) (by decide) (by decide)
    · exact not_lineStartsWith_diverge (lineStartsWith_append _ _) (by decide) (by decide)
    · decide
    · exact htext _ (by decide)
    · exact fun _ => by decide
    · intro k hk
      simp only [List.mem_cons, List.mem_singleton, List.not_mem_nil, or_false] at hk
      rcases hk with rfl | rfl | rfl | rfl <;>
        exact not_lineStartsWith_diverge (lineStartsWith_append _ _) (by decide) (by decide)
    · exact fun _ =>
        not_lineStartsWith_diverge (lineStartsWith_append _ _) (by decide) (by decide)
    · exact fun hne => absurd hempty hne
    · exact fun ts hts hne =>
        not_lineStartsWith_diverge (lineStartsWith_append _ _) (by decide) (by decide)
  · intro hempty
    refine rowLines_no_marker cols r "- Tags:" ?_ ?_ ?_ ?_ ?_ ?_ ?_ ?_ ?_ ?_ ?_
    · exact not_lineStartsWith_diverge (headerLine_startsWith r) (by decide) (by decide)
    · exact fun _ =>
        not_lineStartsWith_diverge (lineStartsWith_append _ _) (by decide) (by decide)
    · exact fun _ =>
        not_lineStartsWith_diverge (lineStartsWith_append _ _) (by decide) (by decide)
    · exact not_lineStartsWith_diverge (lineStartsWith_append _ _) (by decide) (by decide)
    · decide
    · exact htext _ (by decide)
    · exact fun _ => by decide
    · intro k hk
      simp only [List.mem_cons, List.mem_singleton, List.not_mem_nil, or_false] at hk
      rcases hk with rfl | rfl | rfl | rfl <;>
        exact not_lineStartsWith_diverge (lineStartsWith_append _ _) (by decide) (by decide)
    · exact fun _ =>
        not_lineStartsWith_diverge (lineStartsWith_append _ _) (by decide) (by decide)
    · exact fun _ =>
        not_lineStartsWith_diverge (lineStartsWith_append _ _) (by decide) (by decide)
    · exact fun ts hts hne => absurd (hempty ts hts) hne
  · simp [rowLines]

/-- Witness for C1 (amended): a record carrying only a question id has no
`- Explanation:` line but does have its (empty-valued) `- Type: ` line. -/
theorem c1_amended_field_omission_witness :
    (∀ l ∈ rowLines ["question_id"] [("question_id", Val.sc (Scalar.s "Q2"))],
      ¬ lineStartsWith l "- Explanation:")
    ∧ ("- Type: " ++ value [("question_id", Val.sc (Scalar.s "Q2"))] "type")
        ∈ rowLines ["question_id"] [("question_id", Val.sc (Scalar.s "Q2"))] :=
  ⟨(c1_amended_field_omission ["question_id"] [("question_id", Val.sc (Scalar.s "Q2"))]
      (by decide)).2.2.2.2.1 rfl,
   (c1_amended_field_omission ["question_id"] [("question_id", Val.sc (Scalar.s "Q2"))]
      (by decide)).2.2.2.2.2.2⟩

/-- C8 fails as stated: with a single loaded document the pipeline still sets
the `source` of every record to the document label, so the Markdown export carries
a `- Source:` line. -/
theorem c8_counterexample :
    exampleDatasets.length = 1
    ∧ "- Source: quiz.json" ∈ mdLines (build_df exampleDatasets) := by
  have e1 : build_frames exampleDatasets
      = [addSourceCol (json_normalize [Json.obj
          [("question_id", Json.str "Q1"), ("lesson_name", Json.str "Intro"),
           ("module", Json.num 1), ("difficulty", Json.str "easy"),
           ("bloom_level", Json.str "Remember"), ("type", Json.str "multiple_choice"),
           ("question_text", Json.str "What is X?"),
           ("options", Json.obj [("A", Json.str "a"), ("B", Json.str "b")]),
           ("correct_answer", Json.str "A"), ("tags", Json.arr [Json.str "basics"])]])
          "quiz.json"] := rfl
  have e2 : json_normalize [Json.obj
      [("question_id", Json.str "Q1"), ("lesson_name", Json.str "Intro"),
       ("module", Json.num 1), ("difficulty", Json.str "easy"),
       ("bloom_level", Json.str "Remember"), ("type", Json.str "multiple_choice"),
       ("question_text", Json.str "What is X?"),
       ("options", Json.obj [("A", Json.str "a"), ("B", Json.str "b")]),
       ("correct_answer", Json.str "A"), ("tags", Json.arr [Json.str "basics"])]]
      = Frame.mk
      ["question_id", "lesson_name", "module", "difficulty", "bloom_level", "type",
       "question_text", "options.A", "options.B", "correct_answer", "tags"]
      [[("question_id", Val.sc (Scalar.s "Q1")), ("lesson_name", Val.sc (Scalar.s "Intro")),
        ("module", Val.sc (Scalar.i 1)), ("difficulty", Val.sc (Scalar.s "easy")),
        ("bloom_level", Val.sc (Scalar.s "Remember")),
        ("type", Val.sc (Scalar.s "multiple_choice")),
        ("question_text", Val.sc (Scalar.s "What is X?")),
        ("options.A", Val.sc (Scalar.s "a")), ("options.B", Val.sc (Scalar.s "b")),
        ("correct_answer", Val.sc (Scalar.s "A")), ("tags", Val.lst [Scalar.s "basics"])]] := by
    simp [json_normalize, normalizeRecord, flattenFields, dedupFirst, scalarOfJson]
  have e3 : build_df exampleDatasets
      = astype_str_col (concatFrames (build_frames exampleDatasets)) "correct_answer" := rfl
  rw [e1, e2] at e3
  refine ⟨rfl, ?_⟩
  rw [e3]
  decide

/-- C8 (amended): the `- Source:` line of a record is emitted exactly when its
`source` value is non-empty — and the questions pipeline stamps each record
field `source` with the label of its document, regardless of how many documents are
active, so the presence of the line tracks the label rather than the number of
documents. -/
theorem c8_amended (cols : List String) (r : Record)
    (datasets : List (String × Option Json)) (F : Frame)
    (hsrctext : ¬ lineStartsWith (value r "question_text") "- Source:") :
    (value r "source" = "" →
      ∀ l ∈ rowLines cols r, ¬ lineStartsWith l "- Source:")
    ∧ (value r "source" ≠ "" →
      ("- Source: " ++ value r "source") ∈ rowLines cols r)
    ∧ (F ∈ build_frames datasets → ∀ rr ∈ F.rows,
      ∃ lbl, lbl ∈ datasets.map Prod.fst
        ∧ getCell rr "source" = Val.sc (Scalar.s lbl)) := by
  refine ⟨?_, ?_, ?_⟩
  · intro hempty
    refine rowLines_no_marker cols r "- Source:" ?_ ?_ ?_ ?_ ?_ ?_ ?_ ?_ ?_ ?_ ?_
    · exact not_lineStartsWith_diverge (headerLine_startsWith r) (by decide) (by decide)
    · exact fun hne => absurd hempty hne
    · exact fun _ =>
        not_lineStartsWith_diverge (lineStartsWith_append _ _) (by decide) (by decide)
    · exact not_lineStartsWith_diverge (lineStartsWith_append _ _) (by decide) (by decide)
    · decide
    · exact hsrctext
    · exact fun _ => by decide
    · intro k hk
      simp only [List.mem_cons, List.mem_singleton, List.not_mem_nil, or_false] at hk
      rcases hk with rfl | rfl | rfl | rfl <;>
        exact not_lineStartsWith_diverge (lineStartsWith_append _ _) (by decide) (by decide)
    · exact fun _ =>
        not_lineStartsWith_diverge (lineStartsWith_append _ _) (by decide) (by decide)
    · exact fun _ =>
        not_lineStartsWith_diverge (lineStartsWith_append _ _) (by decide) (by decide)
    · exact fun ts hts hne =>
        not_lineStartsWith_diverge (lineStartsWith_append _ _) (by decide) (by decide)
  · intro hne
    simp [rowLines, hne]
  · intro hF rr hrr
    rcases List.mem_filterMap.mp hF with ⟨p, hp, heq⟩
    rcases p with ⟨lbl, d⟩
    cases d with
    | none => simp at heq
    | some j =>
      cases j with
      | obj fields =>
        cases hq : fields.lookup "questions" with
        | none =>
            simp only [hq] at heq
            simp at heq
        | some v =>
          cases v with
          | arr qs =>
              simp only [hq] at heq
              simp only [Option.some.injEq] at heq
              subst heq
              rcases List.mem_map.mp hrr with ⟨r0, _, hr0⟩
              subst hr0
              exact ⟨lbl, List.mem_map.mpr ⟨(lbl, some (Json.obj fields)), hp, rfl⟩,
                getCell_setCell_self r0 "source" _⟩
          | null => simp only [hq] at heq; simp at heq
          | bool b => simp only [hq] at heq; simp at heq
          | num n => simp only [hq] at heq; simp at heq
          | str s => simp only [hq] at heq; simp at heq
          | obj fs => simp only [hq] at heq; simp at heq
      | null => simp at heq
      | bool b => simp at heq
      | num n => simp at heq
      | str s => simp at heq
      | arr xs => simp at heq

/-- Witness for C8 (amended): a record whose `source` is `quiz.json` gets its
`- Source:` line. -/
theorem c8_amended_witness :
    ("- Source: " ++ value [("source", Val.sc (Scalar.s "quiz.json"))] "source")
      ∈ rowLines [] [("source", Val.sc (Scalar.s "quiz.json"))] :=
  (c8_amended [] [("source", Val.sc (Scalar.s "quiz.json"))] [] (Frame.mk [] [])
    (by decide)).2.1 (by decide)
